import Mathlib

/-!
Verification of the scavenger-hunt-game core against its specification.

The definitions below are a shallow embedding of the Rust source:
  * `src/services/location_service.rs` — Geospatial Validator
  * `src/services/image_service.rs`    — Proof Verification Orchestrator
  * `src/models/challenge.rs`          — Temporal Challenge Store, waypoints, participants
  * `src/handlers/waypoints.rs`        — check-in / proof-submission handlers

Machine floats (`f64`) appear only in coordinate/radius/distance fields.
Every finite `f64` is a rational number, and all the code does with these
fields is compare them with `<`, `<=` and pass them through unchanged, so
we model `f64` as a rational together with a NaN element; the IEEE-754
comparison semantics (every comparison involving NaN is false) is modelled
exactly.  Database timestamps (`NOW()`) are modelled as `Nat` instants
passed explicitly; SQL tables are lists of rows.
-/

namespace Scavenger

/-- Decidable equality for `Except` results, so concrete runs of the embedded
operations can be checked by `decide`. -/
instance {ε α : Type} [DecidableEq ε] [DecidableEq α] :
    DecidableEq (Except ε α) := fun a b =>
  match a, b with
  | Except.ok x, Except.ok y =>
    if h : x = y then isTrue (by rw [h]) else isFalse (by
      intro hc; cases hc; exact h rfl)
  | Except.error e, Except.error f =>
    if h : e = f then isTrue (by rw [h]) else isFalse (by
      intro hc; cases hc; exact h rfl)
  | Except.ok _, Except.error _ => isFalse (by intro hc; cases hc)
  | Except.error _, Except.ok _ => isFalse (by intro hc; cases hc)

/-- Model of `f64` values appearing in the source: every finite double is a
rational; `nan` is the IEEE NaN (comparisons with it are always false).
Infinities do not arise in the verified claims. -/
inductive F64 where
  | num (q : ℚ)
  | nan
deriving DecidableEq, Repr

/-- IEEE `<` on our `f64` model: false whenever either side is NaN. -/
def F64.lt : F64 → F64 → Bool
  | F64.num a, F64.num b => a < b
  | _, _ => false

/-- IEEE `<=` on our `f64` model: false whenever either side is NaN. -/
def F64.le : F64 → F64 → Bool
  | F64.num a, F64.num b => a ≤ b
  | _, _ => false

/-- Rust `GeoLocation` — src/services/location_service.rs lines 6-11. -/
structure GeoLocation where
  lat : F64
  lon : F64
deriving DecidableEq, Repr

/-- Rust `LocationError` — src/services/location_service.rs lines 25-35. -/
inductive LocationError where
  | DatabaseError
  | InvalidCoordinates (lat lon : F64)
  | WaypointNotFound
  | LocationOutsideRadius (distance max_distance : F64)
deriving DecidableEq, Repr

/-- Rust `LocationValidationResult` — src/services/location_service.rs lines 18-23. -/
structure LocationValidationResult where
  is_valid : Bool
  distance_meters : F64
  max_distance_meters : F64
deriving DecidableEq, Repr

/-- Rust `LocationService::validate_coordinates` — src/services/location_service.rs
lines 114-130.  Rejects when `lat < -90.0 || lat > 90.0`, then when
`lon < -180.0 || lon > 180.0`, using `f64` comparisons. -/
def validate_coordinates (location : GeoLocation) : Except LocationError Unit :=
  if F64.lt location.lat (F64.num (-90)) || F64.lt (F64.num 90) location.lat then
    Except.error (LocationError.InvalidCoordinates location.lat location.lon)
  else if F64.lt location.lon (F64.num (-180)) || F64.lt (F64.num 180) location.lon then
    Except.error (LocationError.InvalidCoordinates location.lat location.lon)
  else
    Except.ok ()

/-- The body of `LocationService::validate_waypoint_location`
(src/services/location_service.rs lines 47-86) after the waypoint row has
been fetched and the Haversine distance computed: the decision is
`is_valid = distance <= radius_meters` and both distances are reported
back unchanged.  `radius_meters` is the waypoint row's radius and `dist`
the value returned by `calculate_distance`. -/
def validate_waypoint_location (radius_meters dist : F64) : LocationValidationResult :=
  { is_valid := F64.le dist radius_meters
    distance_meters := dist
    max_distance_meters := radius_meters }

/-- Claim-side definition (spec §4.3 wording, for comparison with
`validate_coordinates`): the location's latitude lies in [-90, 90] and its
longitude lies in [-180, 180].  A NaN coordinate does not lie in any
interval. -/
def specCoordsValid (loc : GeoLocation) : Prop :=
  (∃ a : ℚ, loc.lat = F64.num a ∧ -90 ≤ a ∧ a ≤ 90) ∧
  (∃ b : ℚ, loc.lon = F64.num b ∧ -180 ≤ b ∧ b ≤ 180)

/-- Rust `ChallengeError` — src/models/challenge.rs lines 183-205. -/
inductive ChallengeError where
  | DatabaseError
  | ChallengeNotFound
  | WaypointNotFound
  | ParticipantNotFound
  | ChallengeAlreadyStarted
  | ChallengeNotActive
  | NotModerator
  | AlreadyParticipant
  | InvalidWaypointSequence
  | ValidationFailed (msg : String)
deriving DecidableEq, Repr

/-- Rust `WaypointState` — src/models/challenge.rs lines 30-36. -/
inductive WaypointState where
  | Presented
  | CheckedIn
  | Verified
deriving DecidableEq, Repr

/-- Rust `CreateWaypointRequest` — src/models/challenge.rs lines 139-148. -/
structure CreateWaypointRequest where
  waypoint_sequence : Int
  location : GeoLocation
  radius_meters : F64
  waypoint_clue : String
  hints : List String
  waypoint_time_minutes : Option Int
  image_subject : String
deriving DecidableEq, Repr

/-- The check loop of `validate_waypoint_sequences`
(src/models/challenge.rs lines 495-500): at enumeration index `i` the
expected sequence number is `i + 1`; the first mismatch yields
`InvalidWaypointSequence`. -/
def seqCheck : List Int → Nat → Except ChallengeError Unit
  | [], _ => Except.ok ()
  | s :: rest, i =>
    if s ≠ (i : Int) + 1 then Except.error ChallengeError.InvalidWaypointSequence
    else seqCheck rest (i + 1)

/-- Rust `Challenge::validate_waypoint_sequences` — src/models/challenge.rs lines
482-503 (the identical body also appears as
`TemporalChallenge::validate_waypoint_sequences`, lines 879-900): empty
input fails `ValidationFailed`; otherwise the sequence numbers are
collected, sorted, and each compared against its enumeration index + 1. -/
def validate_waypoint_sequences (waypoints : List CreateWaypointRequest) :
    Except ChallengeError Unit :=
  if waypoints.isEmpty then
    Except.error (ChallengeError.ValidationFailed
      "Challenge must have at least one waypoint")
  else
    let sequences := (waypoints.map (fun w => w.waypoint_sequence)).mergeSort
      (fun a b => a ≤ b)
    seqCheck sequences 0

/-- The list `[e, e+1, ..., e+n-1]` of `n` consecutive integers; used to
state "the sorted sequence numbers are exactly `[1..N]`". -/
def consecutive (e : Int) : Nat → List Int
  | 0 => []
  | n + 1 => e :: consecutive (e + 1) n

/-- Rust `Waypoint` row — src/models/challenge.rs lines 102-115.  `Uuid` keys are
modelled as `String`. -/
structure Waypoint where
  waypoint_id : Int
  challenge_id : String
  waypoint_sequence : Int
  location_lat : F64
  location_lon : F64
  radius_meters : F64
  waypoint_clue : String
  hints : Option (List String)
  waypoint_time_minutes : Option Int
  image_subject : String
  created_at : Nat
deriving DecidableEq, Repr

/-- Rust `ChallengeParticipant` row — src/models/challenge.rs lines 117-127. -/
structure Participant where
  participant_id : String
  challenge_id : String
  user_id : Int
  participant_nickname : Option String
  current_waypoint_id : Option Int
  current_state : WaypointState
  joined_at : Nat
  last_updated : Nat
deriving DecidableEq, Repr

/-- Rust `Waypoint::get_by_id` — src/models/challenge.rs lines 523-542: fetch by
primary key from the waypoints table, `WaypointNotFound` if absent. -/
def get_by_id (tbl : List Waypoint) (waypoint_id : Int) :
    Except ChallengeError Waypoint :=
  match tbl.find? (fun w => w.waypoint_id == waypoint_id) with
  | some w => Except.ok w
  | none => Except.error ChallengeError.WaypointNotFound

/-- Rust `Waypoint::get_next_waypoint` — src/models/challenge.rs lines 551-573:
optional fetch of the row with the same `challenge_id` and
`waypoint_sequence = self.waypoint_sequence + 1`. -/
def get_next_waypoint (tbl : List Waypoint) (w : Waypoint) :
    Except ChallengeError (Option Waypoint) :=
  Except.ok (tbl.find? (fun x =>
    x.challenge_id == w.challenge_id &&
    x.waypoint_sequence == w.waypoint_sequence + 1))

/-- Rust `ChallengeParticipant::update_waypoint_state` — src/models/challenge.rs
lines 601-628: one atomic row update setting `current_waypoint_id`,
`current_state` and `last_updated = now`. -/
def update_waypoint_state (p : Participant) (waypoint_id : Int)
    (state : WaypointState) (now : Nat) : Participant :=
  { p with
    current_waypoint_id := some waypoint_id
    current_state := state
    last_updated := now }

/-- Rust `ChallengeParticipant::advance_to_next_waypoint` — src/models/challenge.rs
lines 630-647.  Returns the next waypoint (if any) together with the
participant row as stored after the call. -/
def advance_to_next_waypoint (tbl : List Waypoint) (p : Participant)
    (now : Nat) : Except ChallengeError (Option Waypoint × Participant) :=
  match p.current_waypoint_id with
  | some current_waypoint_id =>
    match get_by_id tbl current_waypoint_id with
    | Except.error e => Except.error e
    | Except.ok current_waypoint =>
      match get_next_waypoint tbl current_waypoint with
      | Except.error e => Except.error e
      | Except.ok next_waypoint =>
        match next_waypoint with
        | some next =>
          Except.ok (some next,
            update_waypoint_state p next.waypoint_id WaypointState.Presented now)
        | none => Except.ok (none, p)
  | none => Except.ok (none, p)

/-- Rust `TemporalChallenge` row — src/models/challenge.rs lines 39-50.  The JSONB
`challenge` payload is opaque to the temporal invariant and is modelled as
a `String`; timestamps are `Nat` instants. -/
structure VersionRow where
  challenge_id : Int
  challenge_version_id : Int
  challenge_name : String
  planned_start_time : Nat
  challenge : String
  start_at : Nat
  end_at : Option Nat
  created_at : Nat
  updated_at : Nat
deriving DecidableEq, Repr

/-- The INSERT of `TemporalChallenge::create_new` — src/models/challenge.rs
lines 652-728: appends the first version row for a freshly allocated
`challenge_id`.  Modelled from the spec: the `temporal_challenges` column
defaults `start_at = now`, `end_at = null` applied by the schema (the
migrations are not under src/) follow spec §4.1: "inserts the first
version with `validity_start = now`, `validity_end = null`". -/
def create_new (store : List VersionRow) (challenge_id version_id : Int)
    (challenge_name : String) (planned_start_time : Nat) (challenge : String)
    (t : Nat) : List VersionRow :=
  store ++ [{ challenge_id := challenge_id
              challenge_version_id := version_id
              challenge_name := challenge_name
              planned_start_time := planned_start_time
              challenge := challenge
              start_at := t
              end_at := none
              created_at := t
              updated_at := t }]

/-- Rust `TemporalChallenge::create_new_version` — src/models/challenge.rs lines
775-822: in one transaction, `UPDATE temporal_challenges SET end_at =
NOW(), updated_at = NOW() WHERE challenge_id = $1 AND end_at IS NULL`,
then INSERT the new version row.  Modelled from the spec: the inserted
row's `start_at = now`, `end_at = null` column defaults (schema not under
src/) follow spec §4.1: "inserts a new row with the updated payload,
`validity_start = now`, `validity_end = null`". -/
def create_new_version (store : List VersionRow) (challenge_id version_id : Int)
    (challenge_name : String) (planned_start_time : Nat) (challenge : String)
    (t : Nat) : List VersionRow :=
  (store.map (fun r =>
    if r.challenge_id = challenge_id ∧ r.end_at = none then
      { r with end_at := some t, updated_at := t }
    else r)) ++
  [{ challenge_id := challenge_id
     challenge_version_id := version_id
     challenge_name := challenge_name
     planned_start_time := planned_start_time
     challenge := challenge
     start_at := t
     end_at := none
     created_at := t
     updated_at := t }]

/-- The rows of one challenge with `end_at IS NULL` ("current"), as selected
by `get_current_by_id` — src/models/challenge.rs lines 730-748. -/
def currentRows (store : List VersionRow) (challenge_id : Int) : List VersionRow :=
  store.filter (fun r =>
    decide (r.challenge_id = challenge_id ∧ r.end_at = none))

/-- Spec §3/§8 temporal invariant for one `challenge_id`: exactly one stored
row is current (`end_at = none`), and that row's `start_at` is the latest
`start_at` among all of the challenge's versions. -/
def temporalInv (store : List VersionRow) (challenge_id : Int) : Prop :=
  ∃ c, currentRows store challenge_id = [c] ∧
    ∀ r ∈ store, r.challenge_id = challenge_id → r.start_at ≤ c.start_at

/-- All versions of the challenge started no later than `T`. -/
def timeBound (store : List VersionRow) (challenge_id : Int) (T : Nat) : Prop :=
  ∀ r ∈ store, r.challenge_id = challenge_id → r.start_at ≤ T

/-- One `create_new_version` call: the new payload, the fresh version id the
database allocates, and the transaction's `NOW()` instant. -/
structure VersionCall where
  challenge : String
  version_id : Int
  time : Nat
deriving DecidableEq, Repr

/-- Fold a sequence of `create_new_version` calls for one challenge over the
store. -/
def applyVersions (challenge_id : Int) (challenge_name : String)
    (planned_start_time : Nat) :
    List VersionRow → List VersionCall → List VersionRow
  | store, [] => store
  | store, c :: rest =>
    applyVersions challenge_id challenge_name planned_start_time
      (create_new_version store challenge_id c.version_id challenge_name
        planned_start_time c.challenge c.time) rest

/-- Rust `ImageError` — src/services/image_service.rs lines 52-66. -/
inductive ImageError where
  | RequestFailed (msg : String)
  | ValidationFailed
  | Timeout
  | InvalidImagePath (msg : String)
  | ServiceUnavailable
  | UnexpectedResponse (msg : String)
deriving DecidableEq, Repr

/-- Rust `StatusResponse` — src/services/image_service.rs lines 41-44. -/
structure StatusResponse where
  status : String
deriving DecidableEq, Repr

/-- Rust `ValidationResult` — src/services/image_service.rs lines 46-50. -/
structure ValidationResult where
  resolution : String
  reasons : Option (List String)
deriving DecidableEq, Repr

/-- Rust `LocationConstraint` — src/services/image_service.rs lines 27-33. -/
structure LocationConstraint where
  lat : F64
  long : F64
  max_distance : F64
deriving DecidableEq, Repr

/-- Rust `DateTimeConstraint` — src/services/image_service.rs lines 35-39. -/
structure DateTimeConstraint where
  start : Nat
  duration : Int
deriving DecidableEq, Repr

/-- Rust `AnalysisRequest` — src/services/image_service.rs lines 20-25. -/
structure AnalysisRequest where
  content : String
  location : Option LocationConstraint
  datetime : Option DateTimeConstraint
deriving DecidableEq, Repr

/-- Rust `ImageValidationRequest` — src/services/image_service.rs lines 10-18. -/
structure ImageValidationRequest where
  processing_id : String
  image_path : String
  analysis_request : AnalysisRequest
deriving DecidableEq, Repr

/-- Whether `pat` is a leading segment of `s` (character-list version of Rust
`str::starts_with`). -/
def charsLeadWith : List Char → List Char → Bool
  | [], _ => true
  | _ :: _, [] => false
  | p :: ps, c :: cs => p == c && charsLeadWith ps cs

/-- Whether `pat` occurs contiguously inside `s` (character-list version of Rust
`str::contains` with a literal pattern). -/
def charsContain : List Char → List Char → Bool
  | [], pat => pat.isEmpty
  | c :: rest, pat => charsLeadWith pat (c :: rest) || charsContain rest pat

/-- Rust `str::contains` with a literal pattern. -/
def strContains (s pat : String) : Bool :=
  charsContain s.toList pat.toList

/-- Rust `str::starts_with` with a literal pattern. -/
def strStartsWith (s pat : String) : Bool :=
  charsLeadWith pat.toList s.toList

/-- Rust `str::trim_end_matches('/')`: drop every trailing `/`. -/
def trimEndSlashes (s : String) : String :=
  String.mk ((s.toList.reverse.dropWhile (fun c => c == '/')).reverse)

/-- Rust `ImageService::build_image_path` — src/services/image_service.rs lines
203-228: reject paths containing `..` or starting with `/`; otherwise join
the configured base directory (cloud URL or local `file://` path) with the
relative path. -/
def build_image_path (image_base_dir relative_path : String) :
    Except ImageError String :=
  if strContains relative_path ".." || strStartsWith relative_path "/" then
    Except.error (ImageError.InvalidImagePath "Path contains invalid characters")
  else if strStartsWith image_base_dir "http://" ||
      strStartsWith image_base_dir "https://" then
    Except.ok (trimEndSlashes image_base_dir ++ "/" ++ relative_path)
  else
    Except.ok ("file://" ++ trimEndSlashes image_base_dir ++ "/" ++ relative_path)

/-- Rust `max_attempts` in `poll_for_completion` — src/services/image_service.rs
line 145. -/
def max_attempts : Nat := 30

/-- Rust `base_delay` (milliseconds) in `poll_for_completion` —
src/services/image_service.rs line 146. -/
def base_delay : Nat := 1000

/-- Observable outcome of the polling loop: the returned value, the number of
status requests issued, and the sleeps performed (in milliseconds, in
order). -/
structure PollResult where
  result : Except ImageError Unit
  requests : Nat
  delays : List Nat
deriving Repr

/-- The loop of `ImageService::poll_for_completion` —
src/services/image_service.rs lines 143-172.  `status n` is the status
string the external service returns to the `n`-th status request
(0-based); `attempts` is the loop counter, `requests` / `delays` the
observations accumulated so far. -/
def poll_aux (status : Nat → String) (attempts requests : Nat)
    (delays : List Nat) : PollResult :=
  let s := status requests
  if s = "completed" then
    { result := Except.ok (), requests := requests + 1, delays := delays }
  else if s = "failed" then
    { result := Except.error ImageError.ValidationFailed
      requests := requests + 1, delays := delays }
  else if s = "in_progress" ∨ s = "accepted" then
    if h : max_attempts ≤ attempts + 1 then
      { result := Except.error ImageError.Timeout
        requests := requests + 1, delays := delays }
    else
      poll_aux status (attempts + 1) (requests + 1)
        (delays ++ [base_delay + (attempts + 1) * 100])
  else
    { result := Except.error (ImageError.UnexpectedResponse
        ("Unknown status: " ++ s))
      requests := requests + 1, delays := delays }
termination_by max_attempts - attempts
decreasing_by
  simp only [max_attempts] at h ⊢
  omega

/-- Rust `ImageService::poll_for_completion` entered with `attempts = 0` —
src/services/image_service.rs lines 143-148. -/
def poll_for_completion (status : Nat → String) : PollResult :=
  poll_aux status 0 0 []

/-- Rust `ImageService::validate_image` — src/services/image_service.rs lines
89-127.  `processing_id` stands for the generated UUID; `submitOk` is
whether the POST to `{base}/validate` returns a 2xx status; `status` is
the external service's answer to each status poll; `results` is the
outcome of the final `get_results` GET.  The second component is the list
of validation POST requests actually sent to the external service. -/
def validate_image (image_base_dir : String) (image_path expected_content : String)
    (location : Option GeoLocation) (max_distance : Option F64)
    (datetime_constraint : Option DateTimeConstraint) (processing_id : String)
    (submitOk : Bool) (status : Nat → String)
    (results : Except ImageError ValidationResult) :
    Except ImageError ValidationResult × List ImageValidationRequest :=
  match build_image_path image_base_dir image_path with
  | Except.error e => (Except.error e, [])
  | Except.ok full_image_path =>
    let location_constraint := location.map (fun loc =>
      { lat := loc.lat
        long := loc.lon
        max_distance := max_distance.getD (F64.num 50) : LocationConstraint })
    let request : ImageValidationRequest :=
      { processing_id := processing_id
        image_path := full_image_path
        analysis_request :=
          { content := expected_content
            location := location_constraint
            datetime := datetime_constraint } }
    if submitOk = false then (Except.error ImageError.ServiceUnavailable, [request])
    else
      match (poll_for_completion status).result with
      | Except.error e => (Except.error e, [request])
      | Except.ok _ => (results, [request])

/-- Rust `str::split(sep)` on a character list: the (non-empty) list of
chunks between occurrences of `sep`. -/
def splitOnChar (sep : Char) : List Char → List (List Char)
  | [] => [[]]
  | c :: rest =>
    if c == sep then [] :: splitOnChar sep rest
    else
      match splitOnChar sep rest with
      | [] => [[c]]
      | chunk :: chunks => (c :: chunk) :: chunks

/-- Rust `ImageService::validate_image_format` — src/services/image_service.rs
lines 231-247: the extension (text after the last `.`, lowercased) must be
one of jpg/jpeg/png/gif/bmp.  (`split('.').next_back()` is the last chunk
of the split.) -/
def validate_image_format (filename : String) : Except ImageError Unit :=
  let allowed_extensions := ["jpg", "jpeg", "png", "gif", "bmp"]
  match (splitOnChar '.' filename.toList).getLast? with
  | none => Except.error (ImageError.InvalidImagePath "No file extension")
  | some ext =>
    let extension := String.mk (ext.map Char.toLower)
    if allowed_extensions.contains extension then Except.ok ()
    else Except.error (ImageError.InvalidImagePath
      ("Unsupported file format: " ++ extension))

/-- The error returns of the two waypoint handlers
(src/handlers/waypoints.rs), one constructor per early-return site.  The
HTTP layer (status code + message) is excluded by the spec; `TooFar`
carries the `distance_meters` / `max_distance_meters` of the
`LocationValidationResult` that decided the failure (spec §7
`TooFar{distance, maxDistance}`). -/
inductive HandlerError where
  | InvalidParticipantId
  | ParticipantNotFound
  | WaypointNotFound
  | WrongChallenge
  | NotCurrentWaypoint
  | LocationValidationError
  | TooFar (distance max_distance : F64)
  | StorageError
  | NotCheckedIn
  | InvalidMultipart
  | NoImageProvided
  | NoImageFilename
  | InvalidImageFormat (e : ImageError)
  | ImageValidationServiceError (e : ImageError)
  | ProofRejected (reasons : Option (List String))
deriving DecidableEq, Repr

/-- Rust `CheckInResponse` — src/handlers/waypoints.rs lines 13-24. -/
structure CheckInResponse where
  challenge_id : String
  participant_id : String
  timestamp : Nat
  waypoint_id : Int
  state : String
  proof : String
deriving DecidableEq, Repr

/-- Rust `ProofResponse` — src/handlers/waypoints.rs lines 26-36. -/
structure ProofResponse where
  challenge_id : String
  participant_id : String
  timestamp : Nat
  waypoint_id : Int
  state : String
deriving DecidableEq, Repr

/-- Rust `check_in_waypoint` — src/handlers/waypoints.rs lines 40-195, entered
after the participant row `p` and waypoint row `w` have been fetched for
path parameter `waypoint_id`.  `locOutcome` is what
`LocationService::validate_waypoint_location` returns (see
`validate_waypoint_location` for its decision); `updOk` is whether the
`update_waypoint_state` storage write succeeds; `now` is the write's
timestamp.  Audit-log and geolocation-log writes are best-effort
(failures only logged — lines 126-151) and do not affect the result.
Returns the handler's result together with the participant row as stored
after the call. -/
def check_in_waypoint (p : Participant) (w : Waypoint) (waypoint_id : Int)
    (locOutcome : Except LocationError LocationValidationResult)
    (updOk : Bool) (now : Nat) :
    Except HandlerError CheckInResponse × Participant :=
  if p.challenge_id ≠ w.challenge_id then
    (Except.error HandlerError.WrongChallenge, p)
  else if p.current_waypoint_id ≠ some waypoint_id then
    (Except.error HandlerError.NotCurrentWaypoint, p)
  else
    match locOutcome with
    | Except.error _ => (Except.error HandlerError.LocationValidationError, p)
    | Except.ok validation_result =>
      if validation_result.is_valid = false then
        (Except.error (HandlerError.TooFar validation_result.distance_meters
          validation_result.max_distance_meters), p)
      else if updOk = false then
        (Except.error HandlerError.StorageError, p)
      else
        (Except.ok
          { challenge_id := p.challenge_id
            participant_id := p.participant_id
            timestamp := now
            waypoint_id := waypoint_id
            state := "CHECKED_IN"
            proof := w.image_subject },
         update_waypoint_state p waypoint_id WaypointState.CheckedIn now)

/-- Rust `submit_waypoint_proof` — src/handlers/waypoints.rs lines 199-511,
entered after the participant row `p` and waypoint row `w` have been
fetched for path parameter `waypoint_id`.  `image_data` / `image_filename`
come from the multipart form; `validation` is the outcome of
`ImageService::validate_image`; `updVerifiedOk` is whether the
`update_waypoint_state(.., Verified)` storage write succeeds and
`advanceOk` whether the storage operations inside
`advance_to_next_waypoint` are reachable (`tbl` is the waypoints table it
reads).  Mirrors the source faithfully: failures of the Verified write and
of the advance step are only logged (lines 416-435) and the handler still
answers success.  Returns the result together with the participant row as
stored after the call. -/
def submit_waypoint_proof (tbl : List Waypoint) (p : Participant) (w : Waypoint)
    (waypoint_id : Int) (image_data : Option (List Nat))
    (image_filename : Option String)
    (validation : Except ImageError ValidationResult)
    (updVerifiedOk : Bool) (advanceOk : Bool) (now : Nat) :
    Except HandlerError ProofResponse × Participant :=
  if p.challenge_id ≠ w.challenge_id then
    (Except.error HandlerError.WrongChallenge, p)
  else if p.current_waypoint_id ≠ some waypoint_id ∨
      p.current_state ≠ WaypointState.CheckedIn then
    (Except.error HandlerError.NotCheckedIn, p)
  else
    match image_data with
    | none => (Except.error HandlerError.NoImageProvided, p)
    | some _ =>
      match image_filename with
      | none => (Except.error HandlerError.NoImageFilename, p)
      | some filename =>
        match validate_image_format filename with
        | Except.error e => (Except.error (HandlerError.InvalidImageFormat e), p)
        | Except.ok _ =>
          match validation with
          | Except.error e =>
            (Except.error (HandlerError.ImageValidationServiceError e), p)
          | Except.ok validation_result =>
            if validation_result.resolution = "accepted" then
              -- update to Verified; on storage error the handler only logs
              let p1 := if updVerifiedOk then
                  update_waypoint_state p waypoint_id WaypointState.Verified now
                else p
              -- try to advance; on error the handler only logs
              let p2 :=
                if advanceOk then
                  match advance_to_next_waypoint tbl p1 now with
                  | Except.ok (_, p') => p'
                  | Except.error _ => p1
                else p1
              (Except.ok
                { challenge_id := p.challenge_id
                  participant_id := p.participant_id
                  timestamp := now
                  waypoint_id := waypoint_id
                  state := "VERIFIED" }, p2)
            else
              (Except.error (HandlerError.ProofRejected validation_result.reasons), p)

/-! ## Theorems -/

/-- C8 (counterexample): the claim "validateCoordinates … fails
`InvalidCoordinates` for every other input (including every latitude or
longitude value not lying in those intervals, such as NaN)" is false on
the code: a NaN latitude makes both range comparisons false, so the
location `{lat = NaN, lon = 0}` is accepted even though its latitude does
not lie in [-90, 90]. -/
theorem C8_counterexample :
    validate_coordinates { lat := F64.nan, lon := F64.num 0 } = Except.ok () ∧
    ¬ specCoordsValid { lat := F64.nan, lon := F64.num 0 } := by
  constructor
  · decide
  · rintro ⟨⟨a, ha, -, -⟩, -⟩
    exact F64.noConfusion ha

/-- C8 (amended): for every location with numeric (non-NaN) coordinates,
`validate_coordinates` succeeds exactly when lat ∈ [-90, 90] and
lon ∈ [-180, 180]; whenever it fails, the error is
`InvalidCoordinates{lat, lon}`; a NaN coordinate passes its own range
check (e.g. the all-NaN location is accepted). -/
theorem C8_validate_coordinates :
    (∀ a b : ℚ,
      validate_coordinates { lat := F64.num a, lon := F64.num b } = Except.ok () ↔
        (-90 ≤ a ∧ a ≤ 90 ∧ -180 ≤ b ∧ b ≤ 180))
  ∧ (∀ loc : GeoLocation, validate_coordinates loc ≠ Except.ok () →
      validate_coordinates loc =
        Except.error (LocationError.InvalidCoordinates loc.lat loc.lon))
  ∧ validate_coordinates { lat := F64.nan, lon := F64.nan } = Except.ok () := by
  refine ⟨fun a b => ?_, fun loc h => ?_, by decide⟩
  · simp only [validate_coordinates, F64.lt, Bool.or_eq_true, decide_eq_true_eq]
    constructor
    · intro h
      by_cases h1 : a < -90 ∨ 90 < a
      · simp [h1] at h
      · by_cases h2 : b < -180 ∨ 180 < b
        · simp [h1, h2] at h
        · push_neg at h1 h2
          exact ⟨h1.1, h1.2, h2.1, h2.2⟩
    · rintro ⟨h1, h2, h3, h4⟩
      have e1 : ¬(a < -90 ∨ 90 < a) := by push_neg; exact ⟨h1, h2⟩
      have e2 : ¬(b < -180 ∨ 180 < b) := by push_neg; exact ⟨h3, h4⟩
      simp [e1, e2]
  · unfold validate_coordinates at h ⊢
    split_ifs at h ⊢
    · rfl
    · rfl
    · exact absurd rfl h

/-- C8 witness for the amended theorem: concrete instances of each part. -/
theorem C8_witness :
    validate_coordinates { lat := F64.num 51, lon := F64.num 0 } = Except.ok () ∧
    validate_coordinates { lat := F64.num 100, lon := F64.num 0 } =
      Except.error (LocationError.InvalidCoordinates (F64.num 100) (F64.num 0)) := by
  constructor
  · exact (C8_validate_coordinates.1 51 0).mpr (by norm_num)
  · exact C8_validate_coordinates.2.1 { lat := F64.num 100, lon := F64.num 0 }
      (by decide)

/-- C3: for a check-in by a participant whose current waypoint is the given
waypoint of their own challenge, with the Geospatial Validator reporting
distance `d` against the waypoint's radius `r`: if `d` exceeds `r` the
handler fails `TooFar{distance, maxDistance}` and the stored participant
row is unchanged; if `d ≤ r` (boundary inclusive) the row becomes
`CheckedIn` with `last_updated = now`. -/
theorem C3_check_in_distance_decision (p : Participant) (w : Waypoint)
    (d r : ℚ) (now : Nat)
    (hch : p.challenge_id = w.challenge_id)
    (hcur : p.current_waypoint_id = some w.waypoint_id)
    (hrad : w.radius_meters = F64.num r) :
    (r < d →
      check_in_waypoint p w w.waypoint_id
        (Except.ok (validate_waypoint_location w.radius_meters (F64.num d)))
        true now
        = (Except.error (HandlerError.TooFar (F64.num d) (F64.num r)), p))
  ∧ (d ≤ r →
      check_in_waypoint p w w.waypoint_id
        (Except.ok (validate_waypoint_location w.radius_meters (F64.num d)))
        true now
        = (Except.ok
            { challenge_id := p.challenge_id
              participant_id := p.participant_id
              timestamp := now
              waypoint_id := w.waypoint_id
              state := "CHECKED_IN"
              proof := w.image_subject },
           { p with current_waypoint_id := some w.waypoint_id
                    current_state := WaypointState.CheckedIn
                    last_updated := now })) := by
  constructor
  · intro hlt
    have hnle : ¬ (d ≤ r) := not_le.mpr hlt
    simp [check_in_waypoint, hch, hcur, hrad, validate_waypoint_location,
      F64.le, hnle]
  · intro hle
    simp [check_in_waypoint, hch, hcur, hrad, validate_waypoint_location,
      F64.le, hle, update_waypoint_state]

/-- C3 witness: a participant exactly at the radius boundary (d = r = 50) is
accepted; at d = 51 > 50 the call fails TooFar and the row is unchanged. -/
theorem C3_witness :
    (check_in_waypoint
      { participant_id := "p1", challenge_id := "A", user_id := 1,
        participant_nickname := none, current_waypoint_id := some 7,
        current_state := WaypointState.Presented, joined_at := 0, last_updated := 0 }
      { waypoint_id := 7, challenge_id := "A", waypoint_sequence := 1,
        location_lat := F64.num 0, location_lon := F64.num 0,
        radius_meters := F64.num 50, waypoint_clue := "clue", hints := none,
        waypoint_time_minutes := none, image_subject := "subject", created_at := 0 }
      7 (Except.ok (validate_waypoint_location (F64.num 50) (F64.num 50))) true 9
      = (Except.ok
          { challenge_id := "A", participant_id := "p1", timestamp := 9,
            waypoint_id := 7, state := "CHECKED_IN", proof := "subject" },
        { participant_id := "p1", challenge_id := "A", user_id := 1,
          participant_nickname := none, current_waypoint_id := some 7,
          current_state := WaypointState.CheckedIn, joined_at := 0,
          last_updated := 9 }))
  ∧ (check_in_waypoint
      { participant_id := "p1", challenge_id := "A", user_id := 1,
        participant_nickname := none, current_waypoint_id := some 7,
        current_state := WaypointState.Presented, joined_at := 0, last_updated := 0 }
      { waypoint_id := 7, challenge_id := "A", waypoint_sequence := 1,
        location_lat := F64.num 0, location_lon := F64.num 0,
        radius_meters := F64.num 50, waypoint_clue := "clue", hints := none,
        waypoint_time_minutes := none, image_subject := "subject", created_at := 0 }
      7 (Except.ok (validate_waypoint_location (F64.num 50) (F64.num 51))) true 9
      = (Except.error (HandlerError.TooFar (F64.num 51) (F64.num 50)),
        { participant_id := "p1", challenge_id := "A", user_id := 1,
          participant_nickname := none, current_waypoint_id := some 7,
          current_state := WaypointState.Presented, joined_at := 0,
          last_updated := 0 })) := by
  constructor
  · exact (C3_check_in_distance_decision _ _ 50 50 9 rfl rfl rfl).2 (by norm_num)
  · exact (C3_check_in_distance_decision _ _ 51 50 9 rfl rfl rfl).1 (by norm_num)

/-- C5 (counterexample): as stated, the claim quantifies over every
participant and waypoint.  When the waypoint belongs to a different
challenge than the participant, the handlers fail `WrongChallenge`
(checked first, src/handlers/waypoints.rs lines 88-95 and 247-254), not
`NotCheckedIn` / `NotCurrentWaypoint`: here the participant is merely
`Presented` (so the claim demands `NotCheckedIn`) and the given waypoint
differs from `current_waypoint_id` (so the claim demands
`NotCurrentWaypoint`), yet both calls fail `WrongChallenge`. -/
theorem C5_counterexample :
    (submit_waypoint_proof []
      { participant_id := "p1", challenge_id := "A", user_id := 1,
        participant_nickname := none, current_waypoint_id := some 1,
        current_state := WaypointState.Presented, joined_at := 0, last_updated := 0 }
      { waypoint_id := 1, challenge_id := "B", waypoint_sequence := 1,
        location_lat := F64.num 0, location_lon := F64.num 0,
        radius_meters := F64.num 50, waypoint_clue := "clue", hints := none,
        waypoint_time_minutes := none, image_subject := "subject", created_at := 0 }
      1 (some [0]) (some "a.jpg")
      (Except.ok { resolution := "accepted", reasons := none }) true true 0).1
      = Except.error HandlerError.WrongChallenge
  ∧ (check_in_waypoint
      { participant_id := "p1", challenge_id := "A", user_id := 1,
        participant_nickname := none, current_waypoint_id := some 1,
        current_state := WaypointState.Presented, joined_at := 0, last_updated := 0 }
      { waypoint_id := 2, challenge_id := "B", waypoint_sequence := 2,
        location_lat := F64.num 0, location_lon := F64.num 0,
        radius_meters := F64.num 50, waypoint_clue := "clue", hints := none,
        waypoint_time_minutes := none, image_subject := "subject", created_at := 0 }
      2 (Except.ok (validate_waypoint_location (F64.num 50) (F64.num 0))) true 0).1
      = Except.error HandlerError.WrongChallenge
  ∧ HandlerError.WrongChallenge ≠ HandlerError.NotCheckedIn
  ∧ HandlerError.WrongChallenge ≠ HandlerError.NotCurrentWaypoint := by
  refine ⟨?_, ?_, by decide, by decide⟩ <;> decide

/-- C5 (amended): for every participant and a waypoint of the participant's
own challenge, `submit_waypoint_proof` fails `NotCheckedIn` with no state
change unless `current_waypoint_id` equals the given waypoint and
`current_state` is `CheckedIn` (in particular, submitting proof before
checking in fails `NotCheckedIn`), and `check_in_waypoint` with a waypoint
not equal to `current_waypoint_id` fails `NotCurrentWaypoint` with no
state change. -/
theorem C5_state_machine_preconditions (tbl : List Waypoint) (p : Participant)
    (w : Waypoint) (waypoint_id : Int) (image_data : Option (List Nat))
    (image_filename : Option String)
    (validation : Except ImageError ValidationResult)
    (updVerifiedOk advanceOk : Bool)
    (locOutcome : Except LocationError LocationValidationResult)
    (updOk : Bool) (now : Nat)
    (hch : p.challenge_id = w.challenge_id) :
    (¬ (p.current_waypoint_id = some waypoint_id ∧
        p.current_state = WaypointState.CheckedIn) →
      submit_waypoint_proof tbl p w waypoint_id image_data image_filename
        validation updVerifiedOk advanceOk now
        = (Except.error HandlerError.NotCheckedIn, p))
  ∧ (p.current_waypoint_id ≠ some waypoint_id →
      check_in_waypoint p w waypoint_id locOutcome updOk now
        = (Except.error HandlerError.NotCurrentWaypoint, p)) := by
  constructor
  · intro hpre
    have hor : p.current_waypoint_id ≠ some waypoint_id ∨
        p.current_state ≠ WaypointState.CheckedIn := by
      by_contra hc
      push_neg at hc
      exact hpre ⟨hc.1, hc.2⟩
    simp [submit_waypoint_proof, hch, hor]
  · intro hcur
    simp [check_in_waypoint, hch, hcur]

/-- C5 witness for the amended theorem: a `Presented` participant submitting
proof for their current waypoint fails `NotCheckedIn`; checking in at a
non-current waypoint of the same challenge fails `NotCurrentWaypoint`. -/
theorem C5_witness :
    (submit_waypoint_proof []
      { participant_id := "p1", challenge_id := "A", user_id := 1,
        participant_nickname := none, current_waypoint_id := some 1,
        current_state := WaypointState.Presented, joined_at := 0, last_updated := 0 }
      { waypoint_id := 1, challenge_id := "A", waypoint_sequence := 1,
        location_lat := F64.num 0, location_lon := F64.num 0,
        radius_meters := F64.num 50, waypoint_clue := "clue", hints := none,
        waypoint_time_minutes := none, image_subject := "subject", created_at := 0 }
      1 (some [0]) (some "a.jpg")
      (Except.ok { resolution := "accepted", reasons := none }) true true 0
      = (Except.error HandlerError.NotCheckedIn,
        { participant_id := "p1", challenge_id := "A", user_id := 1,
          participant_nickname := none, current_waypoint_id := some 1,
          current_state := WaypointState.Presented, joined_at := 0,
          last_updated := 0 }))
  ∧ (check_in_waypoint
      { participant_id := "p1", challenge_id := "A", user_id := 1,
        participant_nickname := none, current_waypoint_id := some 1,
        current_state := WaypointState.Presented, joined_at := 0, last_updated := 0 }
      { waypoint_id := 2, challenge_id := "A", waypoint_sequence := 2,
        location_lat := F64.num 0, location_lon := F64.num 0,
        radius_meters := F64.num 50, waypoint_clue := "clue", hints := none,
        waypoint_time_minutes := none, image_subject := "subject", created_at := 0 }
      2 (Except.ok (validate_waypoint_location (F64.num 50) (F64.num 0))) true 0
      = (Except.error HandlerError.NotCurrentWaypoint,
        { participant_id := "p1", challenge_id := "A", user_id := 1,
          participant_nickname := none, current_waypoint_id := some 1,
          current_state := WaypointState.Presented, joined_at := 0,
          last_updated := 0 })) := by
  constructor
  · exact (C5_state_machine_preconditions [] _ _ 1 (some [0]) (some "a.jpg")
      (Except.ok { resolution := "accepted", reasons := none }) true true
      (Except.ok (validate_waypoint_location (F64.num 50) (F64.num 0))) true 0
      rfl).1 (by decide)
  · exact (C5_state_machine_preconditions [] _ _ 2 (some [0]) (some "a.jpg")
      (Except.ok { resolution := "accepted", reasons := none }) true true
      (Except.ok (validate_waypoint_location (F64.num 50) (F64.num 0))) true 0
      rfl).2 (by decide)

/-- C6 (code bug, evaluation at the failing input): a participant checked in
at waypoint 1 of their challenge submits proof; the external service
accepts it; the storage write setting the state to `Verified` fails and so
does the advance step (`updVerifiedOk = false`, `advanceOk = false`).
The handler only logs these failures (src/handlers/waypoints.rs lines
416-435) and still answers success (`state = "VERIFIED"`), with the stored
participant row left at `CheckedIn` — contradicting spec §7 ("StorageError
— always surfaced, except audit-log writes") and §4.2 ("storage failures
propagate to the caller as retryable errors"). -/
theorem C6_storage_failure_swallowed :
    submit_waypoint_proof []
      { participant_id := "p1", challenge_id := "A", user_id := 1,
        participant_nickname := none, current_waypoint_id := some 1,
        current_state := WaypointState.CheckedIn, joined_at := 0, last_updated := 0 }
      { waypoint_id := 1, challenge_id := "A", waypoint_sequence := 1,
        location_lat := F64.num 0, location_lon := F64.num 0,
        radius_meters := F64.num 50, waypoint_clue := "clue", hints := none,
        waypoint_time_minutes := none, image_subject := "subject", created_at := 0 }
      1 (some [0]) (some "a.jpg")
      (Except.ok { resolution := "accepted", reasons := none }) false false 7
      = (Except.ok
          { challenge_id := "A", participant_id := "p1", timestamp := 7,
            waypoint_id := 1, state := "VERIFIED" },
        { participant_id := "p1", challenge_id := "A", user_id := 1,
          participant_nickname := none, current_waypoint_id := some 1,
          current_state := WaypointState.CheckedIn, joined_at := 0,
          last_updated := 0 }) := by
  decide

/-- C7: for a participant whose current waypoint exists and is the last of
its challenge's sequence (no waypoint with `sequence = current.sequence +
1`), `advance_to_next_waypoint` returns `none`, leaves the participant row
(including `current_waypoint_id`) unchanged, and does not error. -/
theorem C7_advance_on_final (tbl : List Waypoint) (p : Participant)
    (cw : Waypoint) (now : Nat)
    (hcur : p.current_waypoint_id = some cw.waypoint_id)
    (hget : get_by_id tbl cw.waypoint_id = Except.ok cw)
    (hlast : ∀ x ∈ tbl, ¬ (x.challenge_id = cw.challenge_id ∧
        x.waypoint_sequence = cw.waypoint_sequence + 1)) :
    advance_to_next_waypoint tbl p now = Except.ok (none, p) := by
  have hnone : tbl.find? (fun x =>
      x.challenge_id == cw.challenge_id &&
      x.waypoint_sequence == cw.waypoint_sequence + 1) = none := by
    rw [List.find?_eq_none]
    intro x hx
    have := hlast x hx
    simp only [Bool.and_eq_true, beq_iff_eq]
    intro hcontra
    exact this hcontra
  simp [advance_to_next_waypoint, hcur, hget, get_next_waypoint, hnone]

/-- C7 witness: a one-waypoint challenge; the participant sits at that final
waypoint and advancing returns `none` with the row unchanged. -/
theorem C7_witness :
    advance_to_next_waypoint
      [{ waypoint_id := 1, challenge_id := "A", waypoint_sequence := 1,
         location_lat := F64.num 0, location_lon := F64.num 0,
         radius_meters := F64.num 50, waypoint_clue := "clue", hints := none,
         waypoint_time_minutes := none, image_subject := "subject", created_at := 0 }]
      { participant_id := "p1", challenge_id := "A", user_id := 1,
        participant_nickname := none, current_waypoint_id := some 1,
        current_state := WaypointState.Verified, joined_at := 0, last_updated := 0 }
      5
      = Except.ok (none,
        { participant_id := "p1", challenge_id := "A", user_id := 1,
          participant_nickname := none, current_waypoint_id := some 1,
          current_state := WaypointState.Verified, joined_at := 0,
          last_updated := 0 }) := by
  exact C7_advance_on_final _ _
    { waypoint_id := 1, challenge_id := "A", waypoint_sequence := 1,
      location_lat := F64.num 0, location_lon := F64.num 0,
      radius_meters := F64.num 50, waypoint_clue := "clue", hints := none,
      waypoint_time_minutes := none, image_subject := "subject", created_at := 0 }
    5 rfl (by decide) (by decide)

/-- C9: if the evidence path contains `..` or starts with `/`, the whole
`validate_image` call fails `InvalidImagePath` with no request sent to the
external service (`[]`); otherwise every request sent carries the
reference built from the configured base directory joined with the path
(cloud URL base joined directly, local base behind `file://`, trailing
slashes of the base trimmed). -/
theorem C9_evidence_path (image_base_dir image_path expected_content : String)
    (location : Option GeoLocation) (max_distance : Option F64)
    (datetime_constraint : Option DateTimeConstraint) (processing_id : String)
    (submitOk : Bool) (status : Nat → String)
    (results : Except ImageError ValidationResult) :
    ((strContains image_path ".." || strStartsWith image_path "/") = true →
      validate_image image_base_dir image_path expected_content location
        max_distance datetime_constraint processing_id submitOk status results
        = (Except.error
            (ImageError.InvalidImagePath "Path contains invalid characters"), []))
  ∧ ((strContains image_path ".." || strStartsWith image_path "/") = false →
      ∀ req ∈ (validate_image image_base_dir image_path expected_content
          location max_distance datetime_constraint processing_id submitOk
          status results).2,
        req.image_path =
          if (strStartsWith image_base_dir "http://" ||
              strStartsWith image_base_dir "https://") = true then
            trimEndSlashes image_base_dir ++ "/" ++ image_path
          else
            "file://" ++ trimEndSlashes image_base_dir ++ "/" ++ image_path) := by
  constructor
  · intro hbad
    simp [validate_image, build_image_path, hbad]
  · intro hgood req hreq
    unfold validate_image build_image_path at hreq
    rw [hgood] at hreq
    by_cases hcloud : (strStartsWith image_base_dir "http://" ||
        strStartsWith image_base_dir "https://") = true
    · simp only [hcloud, if_true, Bool.false_eq_true, if_false] at hreq ⊢
      cases hsub : submitOk with
      | false => simp [hsub] at hreq; simp [hreq]
      | true =>
        simp [hsub] at hreq
        cases hpoll : (poll_for_completion status).result <;>
          rw [hpoll] at hreq <;> simp at hreq <;> simp [hreq]
    · simp only [hcloud, if_false, Bool.false_eq_true] at hreq ⊢
      cases hsub : submitOk with
      | false => simp [hsub] at hreq; simp [hreq]
      | true =>
        simp [hsub] at hreq
        cases hpoll : (poll_for_completion status).result <;>
          rw [hpoll] at hreq <;> simp at hreq <;> simp [hreq]

/-- C9 witness: a traversal path and an absolute path are rejected with no
request sent; a clean relative path yields a request whose reference joins
the base directory and the path. -/
theorem C9_witness :
    (validate_image "/var/images" "../etc/passwd" "cat" none none none "pid"
      false (fun _ => "completed") (Except.ok { resolution := "accepted", reasons := none })
      = (Except.error
          (ImageError.InvalidImagePath "Path contains invalid characters"), []))
  ∧ (validate_image "/var/images" "/etc/passwd" "cat" none none none "pid"
      false (fun _ => "completed") (Except.ok { resolution := "accepted", reasons := none })
      = (Except.error
          (ImageError.InvalidImagePath "Path contains invalid characters"), []))
  ∧ (∀ req ∈ (validate_image "/var/images/" "team/wp1.jpg" "cat" none none none
        "pid" false (fun _ => "completed")
        (Except.ok { resolution := "accepted", reasons := none })).2,
      req.image_path = "file:///var/images/team/wp1.jpg") := by
  refine ⟨?_, ?_, ?_⟩
  · exact (C9_evidence_path "/var/images" "../etc/passwd" "cat" none none none
      "pid" false (fun _ => "completed")
      (Except.ok { resolution := "accepted", reasons := none })).1 (by decide)
  · exact (C9_evidence_path "/var/images" "/etc/passwd" "cat" none none none
      "pid" false (fun _ => "completed")
      (Except.ok { resolution := "accepted", reasons := none })).1 (by decide)
  · intro req hreq
    have := (C9_evidence_path "/var/images/" "team/wp1.jpg" "cat" none none none
      "pid" false (fun _ => "completed")
      (Except.ok { resolution := "accepted", reasons := none })).2
      (by decide) req hreq
    rw [this]
    decide

/-- C10: every `validate_image` call that supplies a target location but no
`max_distance` sends the external analysis service a location constraint
whose `max_distance` defaults to 50.0 meters
(`max_distance.unwrap_or(50.0)`, src/services/image_service.rs lines
103-107). -/
theorem C10_default_max_distance (image_base_dir image_path expected_content :
    String) (loc : GeoLocation) (datetime_constraint : Option DateTimeConstraint)
    (processing_id : String) (submitOk : Bool) (status : Nat → String)
    (results : Except ImageError ValidationResult) :
    ∀ req ∈ (validate_image image_base_dir image_path expected_content
        (some loc) none datetime_constraint processing_id submitOk status
        results).2,
      req.analysis_request.location =
        some { lat := loc.lat, long := loc.lon, max_distance := F64.num 50 } := by
  intro req hreq
  unfold validate_image at hreq
  split at hreq
  · simp at hreq
  · cases hsub : submitOk with
    | false => simp [hsub] at hreq; simp [hreq]
    | true =>
      simp [hsub] at hreq
      cases hpoll : (poll_for_completion status).result <;>
        rw [hpoll] at hreq <;> simp at hreq <;> simp [hreq]

/-- C10 witness: a concrete call with a location and no max_distance sends
exactly one request, and its constraint carries `max_distance = 50`. -/
theorem C10_witness :
    ∃ req, req ∈ (validate_image "/var/images" "team/wp1.jpg" "cat"
        (some { lat := F64.num 1, lon := F64.num 2 }) none none "pid" false
        (fun _ => "completed")
        (Except.ok { resolution := "accepted", reasons := none })).2 ∧
      req.analysis_request.location =
        some { lat := F64.num 1, long := F64.num 2, max_distance := F64.num 50 } := by
  refine ⟨?_, ?_, ?_⟩
  · exact
      { processing_id := "pid"
        image_path := "file:///var/images/team/wp1.jpg"
        analysis_request :=
          { content := "cat"
            location := some
              { lat := F64.num 1, long := F64.num 2, max_distance := F64.num 50 }
            datetime := none } }
  · decide
  · exact C10_default_max_distance "/var/images" "team/wp1.jpg" "cat"
      { lat := F64.num 1, lon := F64.num 2 } none "pid" false
      (fun _ => "completed")
      (Except.ok { resolution := "accepted", reasons := none }) _ (by decide)

/-- The sequence-check loop succeeds exactly when its input is the
consecutive run starting at `i + 1`. -/
lemma seqCheck_eq_ok (l : List Int) (i : Nat) :
    seqCheck l i = Except.ok () ↔ l = consecutive ((i : Int) + 1) l.length := by
  induction l generalizing i with
  | nil => simp [seqCheck, consecutive]
  | cons s rest ih =>
    have hcast : ((i + 1 : Nat) : Int) + 1 = (i : Int) + 1 + 1 := by
      push_cast
      ring
    by_cases hs : s = (i : Int) + 1
    · rw [seqCheck, if_neg (not_not_intro hs), ih (i + 1), hcast]
      simp [consecutive, hs]
    · rw [seqCheck, if_pos hs]
      simp [consecutive, hs]

/-- The sequence-check loop returns either success or
`InvalidWaypointSequence`. -/
lemma seqCheck_ok_or_invalid (l : List Int) (i : Nat) :
    seqCheck l i = Except.ok () ∨
    seqCheck l i = Except.error ChallengeError.InvalidWaypointSequence := by
  induction l generalizing i with
  | nil => exact Or.inl rfl
  | cons s rest ih =>
    rw [seqCheck]
    split
    · exact Or.inr rfl
    · exact ih (i + 1)

/-- C2: waypoint-sequence validation fails `ValidationFailed` on the empty
list; on a non-empty list it succeeds exactly when the sorted sequence
numbers are `[1..N]` (so any gap or duplicate breaks the equality), and
every failure on a non-empty list is `InvalidWaypointSequence`. -/
theorem C2_validate_waypoint_sequences (waypoints : List CreateWaypointRequest) :
    (waypoints = [] →
      validate_waypoint_sequences waypoints =
        Except.error (ChallengeError.ValidationFailed
          "Challenge must have at least one waypoint"))
  ∧ (waypoints ≠ [] →
      ((validate_waypoint_sequences waypoints = Except.ok () ↔
        (waypoints.map (fun w => w.waypoint_sequence)).mergeSort (fun a b => a ≤ b)
          = consecutive 1 waypoints.length)
      ∧ (validate_waypoint_sequences waypoints ≠ Except.ok () →
        validate_waypoint_sequences waypoints =
          Except.error ChallengeError.InvalidWaypointSequence))) := by
  constructor
  · intro h
    subst h
    rfl
  · intro hne
    have hempty : waypoints.isEmpty = false := by
      cases waypoints with
      | nil => exact absurd rfl hne
      | cons _ _ => rfl
    constructor
    · rw [validate_waypoint_sequences, hempty]
      simp only [Bool.false_eq_true, if_false]
      rw [seqCheck_eq_ok]
      simp [List.length_mergeSort, List.length_map]
    · intro hnok
      rw [validate_waypoint_sequences, hempty] at hnok ⊢
      simp only [Bool.false_eq_true, if_false] at hnok ⊢
      rcases seqCheck_ok_or_invalid
          ((waypoints.map (fun w => w.waypoint_sequence)).mergeSort
            (fun a b => a ≤ b)) 0 with h | h
      · exact absurd h hnok
      · exact h

/-- C2 witness: `[]` fails `ValidationFailed`; sequences `[1, 2]` pass;
sequences `[1, 3]` (a gap) fail `InvalidWaypointSequence`. -/
theorem C2_witness :
    validate_waypoint_sequences [] =
      Except.error (ChallengeError.ValidationFailed
        "Challenge must have at least one waypoint")
  ∧ validate_waypoint_sequences
      [{ waypoint_sequence := 1, location := { lat := F64.num 0, lon := F64.num 0 },
         radius_meters := F64.num 50, waypoint_clue := "a", hints := [],
         waypoint_time_minutes := none, image_subject := "s" },
       { waypoint_sequence := 2, location := { lat := F64.num 0, lon := F64.num 0 },
         radius_meters := F64.num 50, waypoint_clue := "b", hints := [],
         waypoint_time_minutes := none, image_subject := "s" }] = Except.ok ()
  ∧ validate_waypoint_sequences
      [{ waypoint_sequence := 1, location := { lat := F64.num 0, lon := F64.num 0 },
         radius_meters := F64.num 50, waypoint_clue := "a", hints := [],
         waypoint_time_minutes := none, image_subject := "s" },
       { waypoint_sequence := 3, location := { lat := F64.num 0, lon := F64.num 0 },
         radius_meters := F64.num 50, waypoint_clue := "b", hints := [],
         waypoint_time_minutes := none, image_subject := "s" }] =
      Except.error ChallengeError.InvalidWaypointSequence := by
  refine ⟨(C2_validate_waypoint_sequences []).1 rfl, ?_, ?_⟩
  · apply ((C2_validate_waypoint_sequences _).2 (by decide)).1.mpr
    rw [List.mergeSort_of_sorted (by decide)]
    rfl
  · apply ((C2_validate_waypoint_sequences _).2 (by decide)).2
    intro hok
    have h := ((C2_validate_waypoint_sequences _).2 (by decide)).1.mp hok
    rw [List.mergeSort_of_sorted (by decide)] at h
    exact absurd h (by decide)

/-- The sleeps performed after `k` consecutive non-terminal polls starting
from a fresh loop: `1000 + attempts·100` ms for `attempts = 1, …, k`. -/
def delaysFor (k : Nat) : List Nat :=
  (List.range k).map (fun i => base_delay + (i + 1) * 100)

/-- Unfolding `poll_aux` on a non-terminal status below the attempt limit. -/
lemma poll_aux_nonterminal_step (status : Nat → String)
    (attempts requests : Nat) (delays : List Nat)
    (hs : status requests = "in_progress" ∨ status requests = "accepted")
    (hlt : attempts + 1 < max_attempts) :
    poll_aux status attempts requests delays =
      poll_aux status (attempts + 1) (requests + 1)
        (delays ++ [base_delay + (attempts + 1) * 100]) := by
  have h1 : status requests ≠ "completed" := by
    rcases hs with h | h <;> simp [h]
  have h2 : status requests ≠ "failed" := by
    rcases hs with h | h <;> simp [h]
  conv_lhs => rw [poll_aux]
  simp only [if_neg h1, if_neg h2, if_pos hs, dif_neg (not_le.mpr hlt)]

/-- Unfolding `poll_aux` on `"completed"`. -/
lemma poll_aux_completed (status : Nat → String)
    (attempts requests : Nat) (delays : List Nat)
    (h : status requests = "completed") :
    poll_aux status attempts requests delays =
      { result := Except.ok (), requests := requests + 1, delays := delays } := by
  conv_lhs => rw [poll_aux]
  simp only [if_pos h]

/-- Unfolding `poll_aux` on `"failed"`. -/
lemma poll_aux_failed (status : Nat → String)
    (attempts requests : Nat) (delays : List Nat)
    (h : status requests = "failed") :
    poll_aux status attempts requests delays =
      { result := Except.error ImageError.ValidationFailed
        requests := requests + 1, delays := delays } := by
  have h1 : status requests ≠ "completed" := by simp [h]
  conv_lhs => rw [poll_aux]
  simp only [if_neg h1, if_pos h]

/-- Unfolding `poll_aux` on an unknown status string. -/
lemma poll_aux_unexpected (status : Nat → String)
    (attempts requests : Nat) (delays : List Nat)
    (h1 : status requests ≠ "completed") (h2 : status requests ≠ "failed")
    (h3 : status requests ≠ "in_progress") (h4 : status requests ≠ "accepted") :
    poll_aux status attempts requests delays =
      { result := Except.error (ImageError.UnexpectedResponse
          ("Unknown status: " ++ status requests))
        requests := requests + 1, delays := delays } := by
  have hor : ¬ (status requests = "in_progress" ∨ status requests = "accepted") := by
    rintro (h | h)
    · exact h3 h
    · exact h4 h
  conv_lhs => rw [poll_aux]
  simp only [if_neg h1, if_neg h2, if_neg hor]

/-- Unfolding `poll_aux` on a non-terminal status at the attempt limit. -/
lemma poll_aux_timeout (status : Nat → String)
    (attempts requests : Nat) (delays : List Nat)
    (hs : status requests = "in_progress" ∨ status requests = "accepted")
    (hge : max_attempts ≤ attempts + 1) :
    poll_aux status attempts requests delays =
      { result := Except.error ImageError.Timeout
        requests := requests + 1, delays := delays } := by
  have h1 : status requests ≠ "completed" := by
    rcases hs with h | h <;> simp [h]
  have h2 : status requests ≠ "failed" := by
    rcases hs with h | h <;> simp [h]
  conv_lhs => rw [poll_aux]
  simp only [if_neg h1, if_neg h2, if_pos hs, dif_pos hge]

/-- Running `poll_aux` across `k` consecutive non-terminal polls accumulates
`k` linear-backoff delays and advances the counters by `k`. -/
lemma poll_aux_run (status : Nat → String) (k : Nat) :
    ∀ (attempts requests : Nat) (delays : List Nat),
    (∀ i, i < k → status (requests + i) = "in_progress" ∨
      status (requests + i) = "accepted") →
    attempts + k < max_attempts →
    poll_aux status attempts requests delays =
      poll_aux status (attempts + k) (requests + k)
        (delays ++ (List.range k).map
          (fun i => base_delay + (attempts + i + 1) * 100)) := by
  induction k with
  | zero =>
    intro attempts requests delays _ _
    rw [show List.range 0 = [] from rfl, List.map_nil, List.append_nil]
    rfl
  | succ k ih =>
    intro attempts requests delays hk hlt
    rw [poll_aux_nonterminal_step status attempts requests delays
      (by simpa using hk 0 (Nat.succ_pos k)) (by omega)]
    rw [ih (attempts + 1) (requests + 1) _
      (fun i hi => by
        have h := hk (i + 1) (by omega)
        have harr : requests + (i + 1) = requests + 1 + i := by omega
        rw [harr] at h
        exact h)
      (by omega)]
    have harr : attempts + 1 + k = attempts + (k + 1) := by omega
    have hreq : requests + 1 + k = requests + (k + 1) := by omega
    have hdel : [base_delay + (attempts + 1) * 100] ++
        (List.range k).map (fun i => base_delay + (attempts + 1 + i + 1) * 100) =
        (List.range (k + 1)).map (fun i => base_delay + (attempts + i + 1) * 100) := by
      rw [List.range_succ_eq_map, List.map_cons, List.map_map]
      simp only [List.singleton_append, List.cons.injEq]
      constructor
      · simp
      · apply List.map_congr_left
        intro i _
        simp only [Function.comp_apply, Nat.succ_eq_add_one]
        ring_nf
    rw [harr, hreq, List.append_assoc, hdel]

/-- C4: for every status stream, after `k` initial non-terminal
(`"in_progress"`/`"accepted"`) answers the polling loop behaves as:
`"completed"` at poll `k < 30` returns success after exactly `k + 1`
status requests and sleeps of `1000 + attempts·100` ms for
`attempts = 1..k`; a first `"failed"` fails `ValidationFailed` immediately
with no further polls; any other status string fails `UnexpectedResponse`
immediately; and a stream that is non-terminal for all of the first 30
polls fails `Timeout` after exactly 30 status requests (never a 31st). -/
theorem C4_poll_for_completion (status : Nat → String) (k : Nat)
    (hk : ∀ i, i < k → status i = "in_progress" ∨ status i = "accepted") :
    (k < max_attempts → status k = "completed" →
      poll_for_completion status =
        { result := Except.ok (), requests := k + 1, delays := delaysFor k })
  ∧ (k < max_attempts → status k = "failed" →
      poll_for_completion status =
        { result := Except.error ImageError.ValidationFailed
          requests := k + 1, delays := delaysFor k })
  ∧ (k < max_attempts → status k ≠ "completed" → status k ≠ "failed" →
      status k ≠ "in_progress" → status k ≠ "accepted" →
      poll_for_completion status =
        { result := Except.error (ImageError.UnexpectedResponse
            ("Unknown status: " ++ status k))
          requests := k + 1, delays := delaysFor k })
  ∧ (k = max_attempts →
      poll_for_completion status =
        { result := Except.error ImageError.Timeout
          requests := max_attempts, delays := delaysFor (max_attempts - 1) }) := by
  have hrun : ∀ hk30 : k < max_attempts,
      poll_for_completion status = poll_aux status k k (delaysFor k) := by
    intro hk30
    unfold poll_for_completion
    rw [poll_aux_run status k 0 0 []
      (fun i hi => by rw [Nat.zero_add]; exact hk i hi) (by omega)]
    simp only [Nat.zero_add, List.nil_append, delaysFor]
  refine ⟨?_, ?_, ?_, ?_⟩
  · intro hk30 hterm
    rw [hrun hk30, poll_aux_completed status k k (delaysFor k) hterm]
  · intro hk30 hterm
    rw [hrun hk30, poll_aux_failed status k k (delaysFor k) hterm]
  · intro hk30 h1 h2 h3 h4
    rw [hrun hk30, poll_aux_unexpected status k k (delaysFor k) h1 h2 h3 h4]
  · intro hkeq
    subst hkeq
    unfold poll_for_completion
    rw [poll_aux_run status (max_attempts - 1) 0 0 []
      (fun i hi => by
        rw [Nat.zero_add]
        exact hk i (by omega))
      (by norm_num [max_attempts])]
    simp only [Nat.zero_add, List.nil_append]
    rw [poll_aux_timeout status (max_attempts - 1) (max_attempts - 1) _
      (hk (max_attempts - 1) (by norm_num [max_attempts]))
      (by norm_num [max_attempts])]
    simp [delaysFor, max_attempts]

/-- C4 witness: a stream stuck at `"in_progress"` forever times out after
exactly 30 status requests with 29 recorded backoff sleeps. -/
theorem C4_witness :
    poll_for_completion (fun _ => "in_progress") =
      { result := Except.error ImageError.Timeout
        requests := 30, delays := delaysFor 29 } :=
  (C4_poll_for_completion (fun _ => "in_progress") 30
    (fun _ _ => Or.inl rfl)).2.2.2 rfl

/-- After `create_new_version`, the challenge's current rows are exactly the
freshly inserted one: the transaction's UPDATE closes every current row of
the challenge, and the insert adds the single new current row. -/
lemma create_new_version_currentRows (store : List VersionRow)
    (cid vid : Int) (name : String) (pst : Nat) (payload : String) (t : Nat) :
    currentRows (create_new_version store cid vid name pst payload t) cid =
      [{ challenge_id := cid, challenge_version_id := vid,
         challenge_name := name, planned_start_time := pst,
         challenge := payload, start_at := t, end_at := none,
         created_at := t, updated_at := t }] := by
  unfold create_new_version currentRows
  rw [List.filter_append]
  have h1 : (store.map (fun r =>
      if r.challenge_id = cid ∧ r.end_at = none then
        { r with end_at := some t, updated_at := t }
      else r)).filter
      (fun r => decide (r.challenge_id = cid ∧ r.end_at = none)) = [] := by
    rw [List.filter_eq_nil_iff]
    intro r hr
    rw [List.mem_map] at hr
    obtain ⟨r0, _, rfl⟩ := hr
    by_cases hc : r0.challenge_id = cid ∧ r0.end_at = none
    · simp [hc]
    · simp only [if_neg hc, decide_eq_true_eq]
      exact hc
  rw [h1, List.nil_append]
  simp

/-- The UPDATE step of `create_new_version` preserves `challenge_id` and
`start_at` of every row. -/
lemma create_new_version_map_fields (cid : Int) (t : Nat) (r0 : VersionRow) :
    ((if r0.challenge_id = cid ∧ r0.end_at = none then
        { r0 with end_at := some t, updated_at := t }
      else r0) : VersionRow).challenge_id = r0.challenge_id ∧
    ((if r0.challenge_id = cid ∧ r0.end_at = none then
        { r0 with end_at := some t, updated_at := t }
      else r0) : VersionRow).start_at = r0.start_at := by
  by_cases hc : r0.challenge_id = cid ∧ r0.end_at = none <;> simp [hc]

/-- One `create_new_version` call at a no-earlier instant re-establishes the
temporal invariant and the new time bound. -/
lemma create_new_version_inv (store : List VersionRow) (cid vid : Int)
    (name : String) (pst : Nat) (payload : String) (T t : Nat)
    (hbound : timeBound store cid T) (hTt : T ≤ t) :
    temporalInv (create_new_version store cid vid name pst payload t) cid ∧
    timeBound (create_new_version store cid vid name pst payload t) cid t := by
  have hmem : ∀ r ∈ create_new_version store cid vid name pst payload t,
      r.challenge_id = cid → r.start_at ≤ t := by
    intro r hr hcid
    rw [create_new_version, List.mem_append] at hr
    rcases hr with hr | hr
    · rw [List.mem_map] at hr
      obtain ⟨r0, hr0, rfl⟩ := hr
      obtain ⟨hfc, hfs⟩ := create_new_version_map_fields cid t r0
      rw [hfs]
      rw [hfc] at hcid
      exact le_trans (hbound r0 hr0 hcid) hTt
    · rw [List.mem_singleton] at hr
      subst hr
      exact le_refl t
  constructor
  · exact ⟨_, create_new_version_currentRows store cid vid name pst payload t,
      hmem⟩
  · exact hmem

/-- The initial insert of `create` establishes the invariant on a store
holding no version of the
new `challenge_id` yet. -/
lemma create_new_inv (store0 : List VersionRow) (cid vid : Int)
    (name : String) (pst : Nat) (payload : String) (t0 : Nat)
    (h0 : ∀ r ∈ store0, r.challenge_id ≠ cid) :
    temporalInv (create_new store0 cid vid name pst payload t0) cid ∧
    timeBound (create_new store0 cid vid name pst payload t0) cid t0 := by
  have hcur : currentRows (create_new store0 cid vid name pst payload t0) cid =
      [{ challenge_id := cid, challenge_version_id := vid,
         challenge_name := name, planned_start_time := pst,
         challenge := payload, start_at := t0, end_at := none,
         created_at := t0, updated_at := t0 }] := by
    unfold create_new currentRows
    rw [List.filter_append]
    have h1 : store0.filter
        (fun r => decide (r.challenge_id = cid ∧ r.end_at = none)) = [] := by
      rw [List.filter_eq_nil_iff]
      intro r hr
      simp only [decide_eq_true_eq]
      intro hc
      exact h0 r hr hc.1
    rw [h1, List.nil_append]
    simp
  have hmem : ∀ r ∈ create_new store0 cid vid name pst payload t0,
      r.challenge_id = cid → r.start_at ≤ t0 := by
    intro r hr hcid
    rw [create_new, List.mem_append] at hr
    rcases hr with hr | hr
    · exact absurd hcid (h0 r hr)
    · rw [List.mem_singleton] at hr
      subst hr
      exact le_refl t0
  exact ⟨⟨_, hcur, hmem⟩, hmem⟩

/-- Folding `create_new_version` calls with non-decreasing `NOW()` instants
preserves the temporal invariant. -/
lemma applyVersions_inv (cid : Int) (name : String) (pst : Nat) :
    ∀ (calls : List VersionCall) (store : List VersionRow) (T : Nat),
    temporalInv store cid → timeBound store cid T →
    List.Chain' (· ≤ ·) (T :: calls.map VersionCall.time) →
    temporalInv (applyVersions cid name pst store calls) cid := by
  intro calls
  induction calls with
  | nil =>
    intro store T hinv _ _
    exact hinv
  | cons c rest ih =>
    intro store T hinv hbound hchain
    rw [List.map_cons, List.chain'_cons] at hchain
    rw [applyVersions]
    have step := create_new_version_inv store cid c.version_id name pst
      c.challenge T c.time hbound hchain.1
    exact ih _ c.time step.1 step.2 hchain.2

/-- C1: starting from the version inserted by `create` for a fresh
`challenge_id` (on a store holding no versions of that challenge), after
every prefix of any sequence of `create_new_version` calls whose `NOW()`
instants never decrease, the stored versions of that challenge contain
exactly one row with `end_at = null`, and that row has the latest
`start_at` of all the challenge's versions. -/
theorem C1_temporal_invariant (store0 : List VersionRow) (cid vid : Int)
    (name : String) (pst : Nat) (payload : String) (t0 : Nat)
    (calls : List VersionCall)
    (h0 : ∀ r ∈ store0, r.challenge_id ≠ cid)
    (hchain : List.Chain' (· ≤ ·) (t0 :: calls.map VersionCall.time)) :
    ∀ pre post : List VersionCall, pre ++ post = calls →
      temporalInv (applyVersions cid name pst
        (create_new store0 cid vid name pst payload t0) pre) cid := by
  intro pre post hsplit
  have hpref : List.Chain' (· ≤ ·) (t0 :: pre.map VersionCall.time) := by
    subst hsplit
    rw [List.map_append, ← List.cons_append] at hchain
    exact (List.chain'_append.mp hchain).1
  have base := create_new_inv store0 cid vid name pst payload t0 h0
  exact applyVersions_inv cid name pst pre _ t0 base.1 base.2 hpref

/-- C1 witness: an initial `create` at instant 1 followed by two
`create_new_version` calls at instants 2 and 3 on an empty store; the
invariant holds for the full sequence. -/
theorem C1_witness :
    temporalInv (applyVersions 1 "hunt" 0
      (create_new [] 1 10 "hunt" 0 "v1" 1)
      [{ challenge := "v2", version_id := 11, time := 2 },
       { challenge := "v3", version_id := 12, time := 3 }]) 1 :=
  C1_temporal_invariant [] 1 10 "hunt" 0 "v1" 1
    [{ challenge := "v2", version_id := 11, time := 2 },
     { challenge := "v3", version_id := 12, time := 3 }]
    (by intro r hr; cases hr)
    (by
      rw [List.map_cons, List.map_cons, List.map_nil]
      refine List.chain'_cons.mpr ⟨by norm_num, ?_⟩
      refine List.chain'_cons.mpr ⟨by norm_num, ?_⟩
      exact List.chain'_singleton _)
    [{ challenge := "v2", version_id := 11, time := 2 },
     { challenge := "v3", version_id := 12, time := 3 }] [] rfl

end Scavenger
